import Mathlib

/-!
# cpp-upnp: the Internet Gateway Device client (`upnp/igd.h`, `upnp/impl/igd.ipp`)

A shallow embedding of `upnp::igd`: the discovery matcher (`igd::discover`,
`igd::query_root_device`), the SOAP client (`igd::soap_request`) and the two
operations built on it (`igd::add_port_mapping`, `igd::get_external_address`).

Conventions of the embedding.

* `result<T>` is `Except error_code T`; `result<T, E>` is `Except E T`.
* A coroutine call is a function of a *script* that fixes what each suspension
  point (connect, write, read) resumes with, and it returns, next to its result,
  the trace of network operations it started.
* Collaborators whose code is outside `igd.h`/`igd.ipp` (endpoint parsing, the
  routing probe, the XML and device-description parsers, address parsing and
  printing, the user-agent constant) are the fields of `collaborators`.
-/

namespace upnp

/-! ## Data model -/

/-- Error codes that appear in `igd.ipp`: the two `invalid_argument` values
(`net::error::` in `soap_request`, `sys::errc::` in `query_root_device`),
`net::error::operation_aborted`, `sys::errc::io_error`,
`sys::errc::protocol_error`, and any other code a socket operation reports. -/
inductive error_code where
  | net_invalid_argument
  | errc_invalid_argument
  | operation_aborted
  | io_error
  | protocol_error
  | other (value : Nat)
  deriving DecidableEq, Repr

/-- Modelled from the spec: `url_t` (declared outside `igd.h`) is a URL of which
the client reads the host and port and the path, and whose path it can replace
while "host and port" stay unchanged. -/
structure url_t where
  scheme : String
  host : String
  port : String
  path : String
  deriving DecidableEq, Repr

/-- Modelled from the spec: `url_t::host_and_port()`, the text handed to the
endpoint parser. -/
def url_t.host_and_port (u : url_t) : String :=
  u.host ++ ":" ++ u.port

/-- Modelled from the spec: `url_t::replace_path`, "its path replaced";
nothing else of the URL changes. -/
def url_t.replace_path (u : url_t) (p : String) : url_t :=
  { u with path := p }

/-- Modelled from the spec: a service of a device description, "service type
URN, service id, control path"; `control_url` is a `url_t` of which `discover`
reads `path()`. -/
structure service where
  type : String
  id : String
  control_url : url_t
  deriving DecidableEq, Repr

/-- Modelled from the spec: `device` (declared in `upnp/device.h`), a
"type URN (text), ordered list of child device nodes, ordered list of
services". -/
inductive device where
  | mk (type : String) (devices : List device) (services : List service)
  deriving Repr

/-- Field `type` of a `device`. -/
def device.type : device → String
  | .mk t _ _ => t

/-- Field `devices` of a `device`. -/
def device.devices : device → List device
  | .mk _ ds _ => ds

/-- Field `services` of a `device`. -/
def device.services : device → List service
  | .mk _ _ ss => ss

/-- The executor (`net::executor`) a handle is bound to; only its identity
matters here. -/
structure executor where
  id : Nat
  deriving DecidableEq, Repr

/-- A TCP endpoint, the value of `str::consume_endpoint<net::ip::tcp>`. -/
structure endpoint where
  addr : String
  port : Nat
  deriving DecidableEq, Repr

/-- An IP address (`net::ip::address`). -/
inductive address where
  | v4 (a b c d : Nat)
  | v6 (groups : List Nat)
  deriving DecidableEq, Repr

/-- Modelled from the spec: the generic XML tree `xml::parse` returns (a
property tree): the text of the node and its children by tag name, in
document order. -/
inductive ptree where
  | node (data : String) (children : List (String × ptree))
  deriving Repr

/-- The members of `class igd` (`igd.h`, lines 136-141). `_cancel` is not a
field here: what `soap_request` reads from it is part of `soap_script`. -/
structure igd where
  _uuid : String
  _upnp_device : device
  _service_id : String
  _url : url_t
  _urn : String
  _exec : executor
  deriving Repr

/-- An HTTP response (`beast::http::response<string_body>`): `result()` as the
numeric status code, and `body()`. -/
structure response where
  status : Nat
  body : String
  deriving DecidableEq, Repr

/-- The value of `beast::http::status::ok`. -/
def status_ok : Nat := 200

/-- The HTTP verbs `igd.ipp` uses. -/
inductive verb where
  | get
  | post
  deriving DecidableEq, Repr

/-- An HTTP request (`beast::http::request`): verb, target, version and the
header fields in insertion order, and the body. -/
structure request where
  method : verb
  target : String
  version : Nat
  fields : List (String × String)
  body : String
  deriving DecidableEq, Repr

/-- Collaborators of `igd.ipp` whose code lives elsewhere. -/
structure collaborators where
  /-- The endpoint parser `str::consume_endpoint<net::ip::tcp>`. -/
  consume_endpoint : String → Option endpoint
  /-- The routing probe `local_address_to` (`upnp/detail/local_address_to.h`). -/
  local_address_to : endpoint → Option address
  /-- The text `operator<<` writes for a `net::ip::address`. -/
  address_to_string : address → String
  /-- The XML parser `xml::parse`. -/
  xml_parse : String → Option ptree
  /-- The address reader `net::ip::make_address(s, ec)`: `none` when `ec` is set. -/
  make_address : String → Option address
  /-- The device-description parser `device::parse_root`. -/
  parse_root : String → Option device
  /-- The constant `CPP_UPNP_HTTP_USER_AGENT` (`upnp/config.h`). -/
  user_agent : String
  /-- The text of a `url_t`, the request target in `soap_request`. -/
  url_to_string : url_t → String

/-! ## HTTP header fields -/

/-- Field names of HTTP headers compare without regard to case. -/
def iequals (a b : String) : Bool :=
  a.toList.map Char.toLower == b.toList.map Char.toLower

/-- The call `rq.set(name, value)`: the field is set to `value`, any earlier instance
of the same field being removed. -/
def request.set (rq : request) (name value : String) : request :=
  { rq with fields := rq.fields.filter (fun f => !iequals f.1 name) ++ [(name, value)] }

/-- The value of header field `name`, if the request has it. -/
def request.find (rq : request) (name : String) : Option String :=
  (rq.fields.find? (fun f => iequals f.1 name)).map Prod.snd

/-- The call `rq.prepare_payload()` on a POST request with a string body: the
`Content-Length` field is set to the size of the body in bytes. -/
def request.prepare_payload (rq : request) : request :=
  rq.set "Content-Length" (toString rq.body.utf8ByteSize)

/-! ## Discovery: `igd::query_root_device` and `igd::discover` -/

/-- What the three suspension points of `query_root_device` resume with: the
`ec` of connect, write and read (`none`: no error) and the response read. -/
structure fetch_script where
  connect_ec : Option error_code
  write_ec : Option error_code
  read_ec : Option error_code
  rs : response

/-- The request `query_root_device` writes (lines 257-260): a GET of the path
of `url` with the `Host` and `User-Agent` fields. -/
def igd.query_root_device_message (env : collaborators) (url : url_t) : request :=
  let rq : request := { method := .get, target := url.path, version := 11, fields := [],
                        body := "" }
  let rq := rq.set "Host" url.host_and_port
  rq.set "User-Agent" env.user_agent

/-- Embedding of `igd::query_root_device` (`igd.ipp`, lines 233-279). The
outcome of each suspension point is fixed by the script, so the result does
not depend on the request written, `query_root_device_message`. -/
def igd.query_root_device (env : collaborators) (net : fetch_script) (url : url_t) :
    Except error_code device :=
  match env.consume_endpoint url.host_and_port with
  | none => .error .errc_invalid_argument
  | some _ =>
    match net.connect_ec with
    | some ec => .error ec
    | none =>
      match net.write_ec with
      | some ec => .error ec
      | none =>
        match net.read_ec with
        | some ec => .error ec
        | none =>
          if net.rs.status ≠ status_ok then .error .protocol_error
          else
            match env.parse_root net.rs.body with
            | none => .error .io_error
            | some root_dev => .ok root_dev

/-- The value of `ssdp::query::response` that `discover` reads. -/
structure query_response where
  location : url_t
  uuid : String
  deriving DecidableEq, Repr

/-- What `discover` is resumed with: the outcome of `ssdp::query::start`, of
`get_response`, and the script of the root-device fetch. -/
structure discover_script where
  start : Except error_code Unit
  get_response : Except error_code query_response
  fetch : fetch_script

/-- The innermost loop of `discover` (lines 211-225): over the services of
`connection`, pushing one handle per service whose type is `con_ip` or
`con_ppp`. `device` is the variable of the outermost loop. -/
def discover_services (qr : query_response) (exec : executor) (con_ip con_ppp : String)
    (device connection : upnp.device) (igds : List igd) : List igd :=
  connection.services.foldl
    (fun igds service =>
      if service.type ≠ con_ip ∧ service.type ≠ con_ppp then igds
      else
        let url := qr.location.replace_path service.control_url.path
        igds ++ [igd.mk qr.uuid device service.id url service.type exec])
    igds

/-- The middle loop of `discover` (lines 208-226): over the child devices of
`device`, skipping those whose type is not `connection_urn`. -/
def discover_connections (qr : query_response) (exec : executor)
    (connection_urn con_ip con_ppp : String) (device : upnp.device) (igds : List igd) : List igd :=
  device.devices.foldl
    (fun igds connection =>
      if connection.type ≠ connection_urn then igds
      else discover_services qr exec con_ip con_ppp device connection igds)
    igds

/-- The outermost loop of `discover` (lines 205-227): over the child devices of
the root, skipping those whose type is not `device_urn`. -/
def discover_devices (qr : query_response) (exec : executor)
    (device_urn connection_urn con_ip con_ppp : String) (root_dev : device)
    (igds : List igd) : List igd :=
  root_dev.devices.foldl
    (fun igds device =>
      if device.type ≠ device_urn then igds
      else discover_connections qr exec connection_urn con_ip con_ppp device igds)
    igds

/-- Lines 198-229 of `discover`: the four URNs of version `v` and the walk,
starting from the empty vector. -/
def discover_walk (qr : query_response) (exec : executor) (v : String) (root_dev : device) :
    List igd :=
  let device_urn := "urn:schemas-upnp-org:device:WANDevice:" ++ v
  let connection_urn := "urn:schemas-upnp-org:device:WANConnectionDevice:" ++ v
  let con_ip := "urn:schemas-upnp-org:service:WANIPConnection:" ++ v
  let con_ppp := "urn:schemas-upnp-org:service:WANPPPConnection:" ++ v
  discover_devices qr exec device_urn connection_urn con_ip con_ppp root_dev []

/-- Embedding of `igd::discover` (`igd.ipp`, lines 171-230). -/
def igd.discover (env : collaborators) (w : discover_script) (exec : executor) :
    Except error_code (List igd) :=
  match w.start with
  | .error e => .error e
  | .ok _ =>
    match w.get_response with
    | .error e => .error e
    | .ok qr =>
      match igd.query_root_device env w.fetch qr.location with
      | .error _ => .error .io_error
      | .ok root_dev =>
        if root_dev.type = "urn:schemas-upnp-org:device:InternetGatewayDevice:1" then
          .ok (discover_walk qr exec "1" root_dev)
        else if root_dev.type = "urn:schemas-upnp-org:device:InternetGatewayDevice:2" then
          .ok (discover_walk qr exec "2" root_dev)
        else .error .io_error

/-! ## The SOAP client: `igd::soap_request` -/

/-- What the three suspension points of `soap_request` resume with: the `ec`
of connect, write and read (`none`: no error), what `cancelled` reads when the
coroutine resumes from each of them, and the response read. -/
structure soap_script where
  connect_ec : Option error_code
  connect_cancelled : Bool
  write_ec : Option error_code
  write_cancelled : Bool
  read_ec : Option error_code
  read_cancelled : Bool
  rs : response

/-- The network operations a call starts, in order. -/
inductive net_op where
  | connect (ep : endpoint)
  | write (rq : request)
  | read
  deriving DecidableEq, Repr

/-- The envelope `soap_request` wraps `message` in (lines 119-124). -/
def soap_envelope (message : String) : String :=
  "<?xml version=\"1.0\" ?>" ++
  "<s:Envelope xmlns:s=\"http://schemas.xmlsoap.org/soap/envelope/\" " ++
  "s:encodingStyle=\"http://schemas.xmlsoap.org/soap/encoding/\">" ++
  "<s:Body>" ++ message ++ "</s:Body>" ++
  "</s:Envelope>"

/-- The request `soap_request` builds (lines 119-136). -/
def igd.soap_request_message (env : collaborators) (h : igd) (command message : String) :
    request :=
  let body := soap_envelope message
  let rq : request := { method := .post, target := env.url_to_string h._url, version := 11,
                        fields := [], body := "" }
  let rq := rq.set "Host" h._url.host_and_port
  let rq := rq.set "User-Agent" env.user_agent
  let rq := rq.set "Content-Type" "text/xml; charset=\"utf-8\""
  let rq := rq.set "Connection" "Close"
  let rq := rq.set "Cache-Control" "no-cache"
  let rq := rq.set "Pragma" "no-cache"
  let rq := rq.set "SOAPAction" (h._urn ++ "#" ++ command)
  let rq := { rq with body := body }
  rq.prepare_payload

/-- Embedding of `igd::soap_request` (`igd.ipp`, lines 105-167): the result and
the network operations started. -/
def igd.soap_request (env : collaborators) (net : soap_script) (h : igd)
    (command message : String) : Except error_code response × List net_op :=
  match env.consume_endpoint h._url.host_and_port with
  | none => (.error .net_invalid_argument, [])
  | some remote_ep =>
    let rq := h.soap_request_message env command message
    -- stream.async_connect(*opt_remote_ep, yield[ec]);
    if net.connect_cancelled then (.error .operation_aborted, [.connect remote_ep])
    else
      match net.connect_ec with
      | some ec => (.error ec, [.connect remote_ep])
      | none =>
        -- http::async_write(stream, rq, yield[ec]);
        if net.write_cancelled then
          (.error .operation_aborted, [.connect remote_ep, .write rq])
        else
          match net.write_ec with
          | some ec => (.error ec, [.connect remote_ep, .write rq])
          | none =>
            -- http::async_read(stream, b, rs, yield[ec]);
            if net.read_cancelled then
              (.error .operation_aborted, [.connect remote_ep, .write rq, .read])
            else
              match net.read_ec with
              | some ec => (.error ec, [.connect remote_ep, .write rq, .read])
              | none => (.ok net.rs, [.connect remote_ep, .write rq, .read])

/-! ## `igd::add_port_mapping` -/

/-- The enumeration `protocol` with members `tcp` and `udp` (`igd.h`, line 21). -/
inductive igd.protocol where
  | tcp
  | udp
  deriving DecidableEq, Repr

/-- The text `operator<<(os_t&, const protocol&)` writes for a protocol
(`igd.h`, lines 23-25). -/
def igd.protocol.print (p : igd.protocol) : String :=
  if p = .tcp then "TCP" else "UDP"

/-- The variant `error::add_port_mapping` (`igd.h`, lines 65-71). -/
inductive igd.error.add_port_mapping where
  | aborted
  | igd_host_parse_failed
  | soap_request
  | no_endpoint_to_igd
  | bad_response_status (status : Nat)
  deriving DecidableEq, Repr

/-- The variant `error::get_external_address` (`igd.h`, lines 73-79). -/
inductive igd.error.get_external_address where
  | soap_request
  | bad_response_status (status : Nat)
  | invalid_xml_body
  | bad_result
  | bad_address
  deriving DecidableEq, Repr

/-- The text streamed into `body` by `add_port_mapping` (lines 48-59).
`external_port` and `internal_port` are `uint16_t`, `duration` is
`duration.count()`. -/
def igd.add_port_mapping_body (env : collaborators) (h : igd) (proto : igd.protocol)
    (external_port internal_port : Nat) (description : String) (duration : Int)
    (local_ip : address) : String :=
  "<u:AddPortMapping xmlns:u=\"" ++ h._urn ++
  "\"><NewRemoteHost></NewRemoteHost><NewEnabled>1</NewEnabled><NewExternalPort>" ++
  toString (external_port % 65536) ++ "</NewExternalPort><NewProtocol>" ++
  proto.print ++ "</NewProtocol><NewInternalPort>" ++
  toString (internal_port % 65536) ++ "</NewInternalPort><NewInternalClient>" ++
  env.address_to_string local_ip ++ "</NewInternalClient><NewPortMappingDescription>" ++
  description ++ "</NewPortMappingDescription><NewLeaseDuration>" ++
  toString duration ++ "</NewLeaseDuration><NewLeaseDuration>" ++
  toString (0 : Int) ++ "</NewLeaseDuration></u:AddPortMapping>"

/-- Embedding of `igd::add_port_mapping` (`igd.ipp`, lines 26-70): the result
and the network operations started. -/
def igd.add_port_mapping (env : collaborators) (net : soap_script) (h : igd)
    (proto : igd.protocol) (external_port internal_port : Nat) (description : String)
    (duration : Int) : Except igd.error.add_port_mapping Unit × List net_op :=
  match env.consume_endpoint h._url.host_and_port with
  | none => (.error .igd_host_parse_failed, [])
  | some remote_ep =>
    match env.local_address_to remote_ep with
    | none => (.error .no_endpoint_to_igd, [])
    | some local_ip =>
      let body := h.add_port_mapping_body env proto external_port internal_port description
        duration local_ip
      match h.soap_request env net "AddPortMapping" body with
      | (.error _, ops) => (.error .soap_request, ops)
      | (.ok rs, ops) =>
        if rs.status ≠ status_ok then (.error (.bad_response_status rs.status), ops)
        else (.ok (), ops)

/-! ## `igd::get_external_address` -/

/-- Splits a path at its `.` separators. -/
def split_path : List Char → List (List Char)
  | [] => [[]]
  | c :: cs =>
    match split_path cs with
    | [] => [[c]]
    | k :: ks => if c = '.' then [] :: k :: ks else (c :: k) :: ks

/-- The node reached from `t` by descending through the first child named by
each key in turn. -/
def ptree.get_child_optional : ptree → List String → Option ptree
  | t, [] => some t
  | .node _ children, k :: ks =>
    match children.find? (fun kv => kv.1 = k) with
    | none => none
    | some kv => ptree.get_child_optional kv.2 ks

/-- The text of a node. -/
def ptree.data : ptree → String
  | .node d _ => d

/-- Modelled from the spec: `xml_rs.get_optional<std::string>(path)`, "the text
at the path", absent when no node is at the path. -/
def ptree.get_optional (t : ptree) (path : String) : Option String :=
  (t.get_child_optional ((split_path path.toList).map String.mk)).map ptree.data

/-- The request body of `get_external_address` (lines 76-77). -/
def get_external_address_body : String :=
  "<u:GetExternalIPAddress xmlns:u\"urn:schemas-upnp-org:service:WANIPConnection:1\"/>"

/-- The path `get_external_address` reads the address from (lines 91-92). -/
def external_address_path : String :=
  "s:Envelope.s:Body.u:GetExternalIPAddressResponse." ++ "NewExternalIPAddress"

/-- Embedding of `igd::get_external_address` (`igd.ipp`, lines 72-103): the
result and the network operations started. -/
def igd.get_external_address (env : collaborators) (net : soap_script) (h : igd) :
    Except igd.error.get_external_address address × List net_op :=
  match h.soap_request env net "GetExternalIPAddress" get_external_address_body with
  | (.error _, ops) => (.error .soap_request, ops)
  | (.ok rs, ops) =>
    if rs.status ≠ status_ok then (.error (.bad_response_status rs.status), ops)
    else
      match env.xml_parse rs.body with
      | none => (.error .invalid_xml_body, ops)
      | some xml_rs =>
        match xml_rs.get_optional external_address_path with
        | none => (.error .bad_result, ops)
        | some ip_s =>
          match env.make_address ip_s with
          | none => (.error .bad_address, ops)
          | some addr => (.ok addr, ops)

/-! ## Definitions the statements use -/

deriving instance DecidableEq for Except

/-- The handle `discover` pushes for a service found under a connection
device under a device (lines 214-224), `m` being (device, connection,
service) as the three loop variables. -/
def discovered_handle (qr : query_response) (exec : executor) (m : device × device × service) :
    igd :=
  igd.mk qr.uuid m.1 m.2.2.id (qr.location.replace_path m.2.2.control_url.path) m.2.2.type exec

/-- From the claim's words: the services "of type WANIPConnection:v or
WANPPPConnection:v that sit under a child device of type WANConnectionDevice:v
under a root child of type WANDevice:v", in document order, each with the two
devices above it: (WANDevice node, WANConnectionDevice node, service). -/
def matched_services (v : String) (root : device) : List (device × device × service) :=
  (root.devices.filter fun d => d.type = "urn:schemas-upnp-org:device:WANDevice:" ++ v).flatMap
    fun d =>
      (d.devices.filter fun c =>
          c.type = "urn:schemas-upnp-org:device:WANConnectionDevice:" ++ v).flatMap
        fun c =>
          (c.services.filter fun s =>
              s.type = "urn:schemas-upnp-org:service:WANIPConnection:" ++ v ∨
              s.type = "urn:schemas-upnp-org:service:WANPPPConnection:" ++ v).map
            fun s => (d, c, s)

/-- From the claim's words: `M`, the number of matching services, counted
device by device. -/
def matched_count (v : String) (root : device) : Nat :=
  ((root.devices.filter fun d => d.type = "urn:schemas-upnp-org:device:WANDevice:" ++ v).map
    fun d =>
      ((d.devices.filter fun c =>
          c.type = "urn:schemas-upnp-org:device:WANConnectionDevice:" ++ v).map
        fun c =>
          c.services.countP fun s =>
            s.type = "urn:schemas-upnp-org:service:WANIPConnection:" ++ v ∨
            s.type = "urn:schemas-upnp-org:service:WANPPPConnection:" ++ v).sum).sum

/-! ### Fixtures -/

/-- A discovery location. -/
def fixture_location : url_t :=
  { scheme := "http", host := "192.168.1.1", port := "5000", path := "/rootDesc.xml" }

/-- A service with the given type, id and control path. -/
def fixture_service (type id path : String) : service :=
  { type := type, id := id, control_url := { scheme := "", host := "", port := "", path := path } }

/-- A WANConnectionDevice:1 with an IP connection, an unrelated service and a
PPP connection. -/
def fixture_connection : device :=
  .mk "urn:schemas-upnp-org:device:WANConnectionDevice:1" []
    [fixture_service "urn:schemas-upnp-org:service:WANIPConnection:1" "ip1" "/ctl/IPConn",
     fixture_service "urn:schemas-upnp-org:service:Layer3Forwarding:1" "l3f" "/ctl/L3F",
     fixture_service "urn:schemas-upnp-org:service:WANPPPConnection:1" "ppp1" "/ctl/PPPConn"]

/-- A WANDevice:1 that holds `fixture_connection`. -/
def fixture_wan_device : device :=
  .mk "urn:schemas-upnp-org:device:WANDevice:1" [fixture_connection] []

/-- A version-1 gateway: a LAN device without matches, then the WAN device. -/
def fixture_root : device :=
  .mk "urn:schemas-upnp-org:device:InternetGatewayDevice:1"
    [.mk "urn:schemas-upnp-org:device:LANDevice:1" [] [], fixture_wan_device] []

/-- The same subtree under a root that is not a gateway device. -/
def fixture_other_root : device :=
  .mk "urn:schemas-upnp-org:device:MediaServer:1" [fixture_wan_device] []

/-- An IPv4 dotted-quad reader for the fixtures: the two texts the fixtures
use as addresses. -/
def fixture_make_address (s : String) : Option address :=
  if s = "203.0.113.5" then some (.v4 203 0 113 5)
  else if s = "192.168.1.10" then some (.v4 192 168 1 10)
  else none

/-- An envelope holding one `NewExternalIPAddress` element with text `text`. -/
def fixture_address_tree (text : String) : ptree :=
  .node "" [("s:Envelope", .node "" [("s:Body", .node ""
    [("u:GetExternalIPAddressResponse", .node ""
      [("NewExternalIPAddress", .node text [])])])])]

/-- An envelope whose element names carry no `s:` or `u:` qualifier, holding
`NewExternalIPAddress` with the text `203.0.113.5`: the tree of
`<Envelope><Body><GetExternalIPAddressResponse><NewExternalIPAddress>203.0.113.5`
and the closing tags. -/
def fixture_plain_address_tree : ptree :=
  .node "" [("Envelope", .node "" [("Body", .node ""
    [("GetExternalIPAddressResponse", .node ""
      [("NewExternalIPAddress", .node "203.0.113.5" [])])])])]

/-- From the claim's words: "the path
Envelope.Body.GetExternalIPAddressResponse.NewExternalIPAddress". -/
def claimed_address_path : String :=
  "Envelope.Body.GetExternalIPAddressResponse.NewExternalIPAddress"

/-- Collaborators for the fixtures: the endpoint parser knows two hosts, only
the first of which has a local address routed to it, the description parser
yields `root`, and the XML parser knows four bodies. -/
def fixture_env (root : device) : collaborators where
  consume_endpoint := fun s =>
    if s = "192.168.1.1:5000" then some { addr := "192.168.1.1", port := 5000 }
    else if s = "10.0.0.1:80" then some { addr := "10.0.0.1", port := 80 }
    else none
  local_address_to := fun ep => if ep.addr = "192.168.1.1" then some (.v4 192 168 1 10) else none
  address_to_string := fun _ => "192.168.1.10"
  xml_parse := fun s =>
    if s = "good" then some (fixture_address_tree "203.0.113.5")
    else if s = "abc" then some (fixture_address_tree "abc")
    else if s = "empty" then some (.node "" [("s:Envelope", .node "" [])])
    else if s = "plain" then some fixture_plain_address_tree
    else none
  make_address := fixture_make_address
  parse_root := fun _ => some root
  user_agent := "cpp-upnp"
  url_to_string := fun u => u.path

/-- A script in which discovery, connect, write and read all succeed and the
description is served with status 200. -/
def fixture_discovery : discover_script :=
  { start := .ok (), get_response := .ok { location := fixture_location, uuid := "uuid-1" },
    fetch := { connect_ec := none, write_ec := none, read_ec := none,
               rs := { status := 200, body := "" } } }

/-- The first handle `discover` yields on `fixture_root`. -/
def fixture_igd : igd :=
  { _uuid := "uuid-1", _upnp_device := fixture_wan_device, _service_id := "ip1",
    _url := { scheme := "http", host := "192.168.1.1", port := "5000", path := "/ctl/IPConn" },
    _urn := "urn:schemas-upnp-org:service:WANIPConnection:1", _exec := { id := 0 } }

/-- A round trip without errors or cancellation that reads `rs`. -/
def fixture_round_trip (rs : response) : soap_script :=
  { connect_ec := none, connect_cancelled := false, write_ec := none, write_cancelled := false,
    read_ec := none, read_cancelled := false, rs := rs }

/-- A round trip in which `stop()` is called while the request is being
connected: the connect completes without error and `cancelled` reads true
from then on. -/
def fixture_stopped_round_trip : soap_script :=
  { connect_ec := none, connect_cancelled := true, write_ec := none, write_cancelled := true,
    read_ec := none, read_cancelled := true, rs := { status := 200, body := "" } }

/-- The fixture handle with another host and port in its control URL. -/
def fixture_igd_at (host port : String) : igd :=
  { fixture_igd with _url := { fixture_igd._url with host := host, port := port } }

/-- A round trip whose connect fails with error code `ec`. -/
def fixture_failed_connect (ec : error_code) : soap_script :=
  { connect_ec := some ec, connect_cancelled := false, write_ec := none,
    write_cancelled := false, read_ec := none, read_cancelled := false,
    rs := { status := 200, body := "" } }

/-! ### Reading elements out of an emitted body -/

/-- Whether `pat` can begin at the head of `t` once some text is put after
`t`: `t` and `pat` agree as far as both go. -/
def may_begin : List Char → List Char → Bool
  | [], _ => true
  | _ :: _, [] => true
  | p :: ps, c :: cs => p == c && may_begin ps cs

/-- Whether no occurrence of `pat` begins inside `xs`, whatever text follows
`xs`. -/
def clear_of (pat : List Char) : List Char → Bool
  | [] => true
  | c :: cs => !may_begin pat (c :: cs) && clear_of pat cs

/-- The text before the first occurrence of `pat`, if `pat` occurs. -/
def take_to (pat : List Char) : List Char → Option (List Char)
  | [] => if pat = [] then some [] else none
  | c :: cs => if pat.isPrefixOf (c :: cs) then some [] else (take_to pat cs).map (c :: ·)

/-- For each place where the text `opening` occurs, in order, the text
between it and the next `closing`. -/
def element_texts_from (opening closing : List Char) : List Char → List (List Char)
  | [] => []
  | c :: cs =>
    (if opening.isPrefixOf (c :: cs) then
        (take_to closing ((c :: cs).drop opening.length)).toList
      else []) ++ element_texts_from opening closing cs

/-- The texts of the elements `<name>…</name>` of `body`, in document order. -/
def element_texts (name body : String) : List String :=
  (element_texts_from ("<" ++ name ++ ">").toList ("</" ++ name ++ ">").toList body.toList).map
    String.mk

/-! ## Discovery -/

theorem foldl_skip_append {α β : Type} (skip : α → Prop) [DecidablePred skip]
    (f : α → List β) (l : List α) (acc : List β) :
    l.foldl (fun acc x => if skip x then acc else acc ++ f x) acc
      = acc ++ (l.filter fun x => ¬ skip x).flatMap f := by
  induction l generalizing acc with
  | nil => simp
  | cons x xs ih =>
    by_cases hx : skip x
    · simp [List.foldl_cons, hx, ih]
    · simp [List.foldl_cons, hx, ih]

theorem discover_services_eq (qr : query_response) (exec : executor) (con_ip con_ppp : String)
    (d c : device) (igds : List igd) :
    discover_services qr exec con_ip con_ppp d c igds
      = igds ++ (c.services.filter fun s => s.type = con_ip ∨ s.type = con_ppp).map
          fun s => discovered_handle qr exec (d, c, s) := by
  unfold discover_services
  rw [foldl_skip_append (fun s : service => s.type ≠ con_ip ∧ s.type ≠ con_ppp)
    (fun s => [igd.mk qr.uuid d s.id (qr.location.replace_path s.control_url.path) s.type exec])]
  congr 1
  induction c.services with
  | nil => simp
  | cons s ss ih =>
    by_cases h1 : s.type = con_ip <;> by_cases h2 : s.type = con_ppp <;>
      simp_all [List.filter_cons, discovered_handle]

theorem discover_connections_eq (qr : query_response) (exec : executor)
    (connection_urn con_ip con_ppp : String) (d : device) (igds : List igd) :
    discover_connections qr exec connection_urn con_ip con_ppp d igds
      = igds ++ (d.devices.filter fun c => c.type = connection_urn).flatMap fun c =>
          (c.services.filter fun s => s.type = con_ip ∨ s.type = con_ppp).map
            fun s => discovered_handle qr exec (d, c, s) := by
  unfold discover_connections
  simp only [discover_services_eq]
  rw [foldl_skip_append (fun c : device => c.type ≠ connection_urn)]
  simp

theorem discover_devices_eq (qr : query_response) (exec : executor)
    (device_urn connection_urn con_ip con_ppp : String) (root : device) (igds : List igd) :
    discover_devices qr exec device_urn connection_urn con_ip con_ppp root igds
      = igds ++ (root.devices.filter fun d => d.type = device_urn).flatMap fun d =>
          (d.devices.filter fun c => c.type = connection_urn).flatMap fun c =>
            (c.services.filter fun s => s.type = con_ip ∨ s.type = con_ppp).map
              fun s => discovered_handle qr exec (d, c, s) := by
  unfold discover_devices
  simp only [discover_connections_eq]
  rw [foldl_skip_append (fun d : device => d.type ≠ device_urn)]
  simp

/-- The three loops of `discover` push one handle per matched service, in
document order. -/
theorem discover_walk_eq (qr : query_response) (exec : executor) (v : String) (root : device) :
    discover_walk qr exec v root = (matched_services v root).map (discovered_handle qr exec) := by
  unfold discover_walk matched_services
  simp only [discover_devices_eq, List.nil_append, List.map_flatMap, List.map_map]
  rfl

theorem matched_count_eq (v : String) (root : device) :
    matched_count v root = (matched_services v root).length := by
  unfold matched_count matched_services
  simp [List.length_flatMap, List.countP_eq_length_filter, Function.comp_def]

/-- On a fetched root of a gateway type of version `v`, `discover` returns the
vector the walk builds. -/
theorem discover_of_root (env : collaborators) (w : discover_script) (exec : executor)
    (qr : query_response) (root : device) (v : String)
    (hstart : w.start = .ok ()) (hresp : w.get_response = .ok qr)
    (hfetch : igd.query_root_device env w.fetch qr.location = .ok root)
    (hv : v = "1" ∨ v = "2")
    (htype : root.type = "urn:schemas-upnp-org:device:InternetGatewayDevice:" ++ v) :
    igd.discover env w exec = .ok (discover_walk qr exec v root) := by
  unfold igd.discover
  rw [hstart, hresp]
  simp only [hfetch]
  rcases hv with rfl | rfl
  · have h1 : root.type = "urn:schemas-upnp-org:device:InternetGatewayDevice:1" := by
      rw [htype]; decide
    simp [h1]
  · have h2 : root.type = "urn:schemas-upnp-org:device:InternetGatewayDevice:2" := by
      rw [htype]; decide
    have h1 : root.type ≠ "urn:schemas-upnp-org:device:InternetGatewayDevice:1" := by
      rw [h2]; decide
    simp [h1, h2]

/-- Where each matched service sits in the tree. -/
theorem matched_services_mem (v : String) (root : device) (m : device × device × service)
    (hm : m ∈ matched_services v root) :
    m.1 ∈ root.devices ∧ m.1.type = "urn:schemas-upnp-org:device:WANDevice:" ++ v ∧
    m.2.1 ∈ m.1.devices ∧
    m.2.1.type = "urn:schemas-upnp-org:device:WANConnectionDevice:" ++ v ∧
    m.2.2 ∈ m.2.1.services ∧
    (m.2.2.type = "urn:schemas-upnp-org:service:WANIPConnection:" ++ v ∨
     m.2.2.type = "urn:schemas-upnp-org:service:WANPPPConnection:" ++ v) := by
  unfold matched_services at hm
  simp only [List.mem_flatMap, List.mem_filter, List.mem_map, decide_eq_true_eq,
    Bool.decide_or, Bool.or_eq_true] at hm
  obtain ⟨d, ⟨hd, hdt⟩, c, ⟨hc, hct⟩, s, ⟨hs, hst⟩, rfl⟩ := hm
  exact ⟨hd, hdt, hc, hct, hs, hst⟩

/-- C1: for every discovery response and every fetched root device of type
InternetGatewayDevice:v (v = 1 or 2), `discover` succeeds with exactly `M`
handles, `M` the number of WANIPConnection:v / WANPPPConnection:v services
under a WANConnectionDevice:v under a WANDevice:v child of the root; the
handles are in document order, each control URL has the path of its service's
control URL and the host and port (and scheme) of the discovery location; and
`M = 0` gives the successful empty list. -/
theorem discover_returns_one_handle_per_matched_service
    (env : collaborators) (w : discover_script) (exec : executor)
    (qr : query_response) (root : device) (v : String)
    (hstart : w.start = .ok ()) (hresp : w.get_response = .ok qr)
    (hfetch : igd.query_root_device env w.fetch qr.location = .ok root)
    (hv : v = "1" ∨ v = "2")
    (htype : root.type = "urn:schemas-upnp-org:device:InternetGatewayDevice:" ++ v) :
    ∃ hs : List igd, igd.discover env w exec = .ok hs ∧
      hs.length = matched_count v root ∧
      hs.map (fun h => h._url.path)
        = (matched_services v root).map (fun m => m.2.2.control_url.path) ∧
      (∀ h ∈ hs, h._url.host = qr.location.host ∧ h._url.port = qr.location.port ∧
        h._url.scheme = qr.location.scheme) ∧
      (matched_count v root = 0 → hs = []) := by
  refine ⟨_, discover_of_root env w exec qr root v hstart hresp hfetch hv htype, ?_, ?_, ?_, ?_⟩
  · rw [discover_walk_eq, matched_count_eq, List.length_map]
  · rw [discover_walk_eq, List.map_map]
    rfl
  · intro h hh
    rw [discover_walk_eq, List.mem_map] at hh
    obtain ⟨m, _, rfl⟩ := hh
    exact ⟨rfl, rfl, rfl⟩
  · intro h0
    rw [discover_walk_eq]
    rw [matched_count_eq, List.length_eq_zero] at h0
    rw [h0]
    rfl

/-- C1, at the fixture: two handles, for the IP and the PPP connection. -/
theorem discover_returns_one_handle_per_matched_service_witness :
    ∃ hs : List igd,
      igd.discover (fixture_env fixture_root) fixture_discovery { id := 0 } = .ok hs ∧
      hs.length = matched_count "1" fixture_root ∧
      hs.map (fun h => h._url.path)
        = (matched_services "1" fixture_root).map (fun m => m.2.2.control_url.path) ∧
      (∀ h ∈ hs, h._url.host = fixture_location.host ∧ h._url.port = fixture_location.port ∧
        h._url.scheme = fixture_location.scheme) ∧
      (matched_count "1" fixture_root = 0 → hs = []) :=
  discover_returns_one_handle_per_matched_service (fixture_env fixture_root) fixture_discovery
    { id := 0 } { location := fixture_location, uuid := "uuid-1" } fixture_root "1"
    rfl rfl rfl (Or.inl rfl) (by decide)

/-- C5: for every fetched root device whose type is neither of the two
InternetGatewayDevice URNs, `discover` returns an error (`io_error`) and so no
list of handles, whatever the tree below the root holds. -/
theorem discover_rejects_unrecognized_root_type
    (env : collaborators) (w : discover_script) (exec : executor)
    (qr : query_response) (root : device)
    (hstart : w.start = .ok ()) (hresp : w.get_response = .ok qr)
    (hfetch : igd.query_root_device env w.fetch qr.location = .ok root)
    (h1 : root.type ≠ "urn:schemas-upnp-org:device:InternetGatewayDevice:1")
    (h2 : root.type ≠ "urn:schemas-upnp-org:device:InternetGatewayDevice:2") :
    igd.discover env w exec = .error .io_error := by
  unfold igd.discover
  rw [hstart, hresp]
  simp [hfetch, h1, h2]

/-- C5, at a root of another type whose subtree would match version 1. -/
theorem discover_rejects_unrecognized_root_type_witness :
    matched_count "1" fixture_other_root = 2 ∧
    igd.discover (fixture_env fixture_other_root) fixture_discovery { id := 0 }
      = .error .io_error :=
  ⟨by decide,
   discover_rejects_unrecognized_root_type (fixture_env fixture_other_root) fixture_discovery
    { id := 0 } { location := fixture_location, uuid := "uuid-1" } fixture_other_root
    rfl rfl rfl (by decide) (by decide)⟩

/-- C8 as stated fails: on the fixture gateway the device subtrees the handles
store are not the WANConnectionDevice nodes that contain the matched
services. -/
theorem discover_handle_device_is_not_connection_device :
    ¬ (∀ hs : List igd,
        igd.discover (fixture_env fixture_root) fixture_discovery { id := 0 } = .ok hs →
        hs.map (fun h => h._upnp_device) = (matched_services "1" fixture_root).map (fun m => m.2.1))
    := by
  intro hall
  have h := hall _ rfl
  have ht := congrArg (List.map device.type) h
  revert ht
  decide

/-- C8, amended: every handle `discover` constructs for a matched service
stores, as its device subtree, the WANDevice node matched in the first filter
stage (a child of the root), under which the WANConnectionDevice node that
contains the service sits. -/
theorem discover_handle_stores_wan_device
    (env : collaborators) (w : discover_script) (exec : executor)
    (qr : query_response) (root : device) (v : String)
    (hstart : w.start = .ok ()) (hresp : w.get_response = .ok qr)
    (hfetch : igd.query_root_device env w.fetch qr.location = .ok root)
    (hv : v = "1" ∨ v = "2")
    (htype : root.type = "urn:schemas-upnp-org:device:InternetGatewayDevice:" ++ v) :
    ∃ hs : List igd, igd.discover env w exec = .ok hs ∧
      hs.map (fun h => h._upnp_device) = (matched_services v root).map (fun m => m.1) ∧
      hs.map (fun h => h._urn) = (matched_services v root).map (fun m => m.2.2.type) ∧
      hs.map (fun h => h._service_id) = (matched_services v root).map (fun m => m.2.2.id) ∧
      ∀ m ∈ matched_services v root,
        m.1 ∈ root.devices ∧ m.1.type = "urn:schemas-upnp-org:device:WANDevice:" ++ v ∧
        m.2.1 ∈ m.1.devices ∧
        m.2.1.type = "urn:schemas-upnp-org:device:WANConnectionDevice:" ++ v ∧
        m.2.2 ∈ m.2.1.services := by
  refine ⟨_, discover_of_root env w exec qr root v hstart hresp hfetch hv htype, ?_, ?_, ?_, ?_⟩
  · rw [discover_walk_eq, List.map_map]; rfl
  · rw [discover_walk_eq, List.map_map]; rfl
  · rw [discover_walk_eq, List.map_map]; rfl
  · intro m hm
    obtain ⟨a, b, c, d, e, _⟩ := matched_services_mem v root m hm
    exact ⟨a, b, c, d, e⟩

/-- C8 amended, at the fixture. -/
theorem discover_handle_stores_wan_device_witness :
    ∃ hs : List igd,
      igd.discover (fixture_env fixture_root) fixture_discovery { id := 0 } = .ok hs ∧
      hs.map (fun h => h._upnp_device) = (matched_services "1" fixture_root).map (fun m => m.1) ∧
      hs.map (fun h => h._urn) = (matched_services "1" fixture_root).map (fun m => m.2.2.type) ∧
      hs.map (fun h => h._service_id)
        = (matched_services "1" fixture_root).map (fun m => m.2.2.id) ∧
      ∀ m ∈ matched_services "1" fixture_root,
        m.1 ∈ fixture_root.devices ∧ m.1.type = "urn:schemas-upnp-org:device:WANDevice:" ++ "1" ∧
        m.2.1 ∈ m.1.devices ∧
        m.2.1.type = "urn:schemas-upnp-org:device:WANConnectionDevice:" ++ "1" ∧
        m.2.2 ∈ m.2.1.services :=
  discover_handle_stores_wan_device (fixture_env fixture_root) fixture_discovery
    { id := 0 } { location := fixture_location, uuid := "uuid-1" } fixture_root "1"
    rfl rfl rfl (Or.inl rfl) (by decide)

/-! ## The SOAP client -/

/-- The header fields of the request `soap_request` builds, in order. -/
theorem soap_request_message_fields (env : collaborators) (h : igd) (command message : String) :
    (h.soap_request_message env command message).fields =
      [("Host", h._url.host_and_port), ("User-Agent", env.user_agent),
       ("Content-Type", "text/xml; charset=\"utf-8\""), ("Connection", "Close"),
       ("Cache-Control", "no-cache"), ("Pragma", "no-cache"),
       ("SOAPAction", h._urn ++ "#" ++ command),
       ("Content-Length", toString (soap_envelope message).utf8ByteSize)] := by
  rfl

/-- The operations `soap_request` starts write no other request than the one
it builds. -/
theorem soap_request_writes (env : collaborators) (net : soap_script) (h : igd)
    (command message : String) (rq : request)
    (hrq : net_op.write rq ∈ (h.soap_request env net command message).2) :
    rq = h.soap_request_message env command message := by
  unfold igd.soap_request at hrq
  split at hrq
  · simp at hrq
  · split at hrq
    · simp at hrq
    · split at hrq
      · simp at hrq
      · split at hrq
        · simpa using hrq
        · split at hrq
          · simpa using hrq
          · split at hrq
            · simpa using hrq
            · split at hrq
              · simpa using hrq
              · simpa using hrq

/-- Once the endpoint parses and the connect resumes uncancelled and without
error, `soap_request` starts the write of the request it builds. -/
theorem soap_request_writes_message (env : collaborators) (net : soap_script) (h : igd)
    (command message : String) (remote_ep : endpoint)
    (hep : env.consume_endpoint h._url.host_and_port = some remote_ep)
    (hc : net.connect_cancelled = false) (hec : net.connect_ec = none) :
    net_op.write (h.soap_request_message env command message)
      ∈ (h.soap_request env net command message).2 := by
  cases hwc : net.write_cancelled <;> cases hwe : net.write_ec <;>
    cases hrc : net.read_cancelled <;> cases hre : net.read_ec <;>
    simp [igd.soap_request, hep, hc, hec, hwc, hwe, hrc, hre]

/-- `add_port_mapping` once the endpoint parses and a local address exists:
the result is read off the result of `soap_request`, whose operations are the
only ones started. -/
theorem add_port_mapping_of_soap (env : collaborators) (net : soap_script) (h : igd)
    (proto : igd.protocol) (external_port internal_port : Nat) (description : String)
    (duration : Int) (remote_ep : endpoint) (local_ip : address)
    (hep : env.consume_endpoint h._url.host_and_port = some remote_ep)
    (hip : env.local_address_to remote_ep = some local_ip) :
    h.add_port_mapping env net proto external_port internal_port description duration =
      ((match (h.soap_request env net "AddPortMapping"
            (h.add_port_mapping_body env proto external_port internal_port description
              duration local_ip)).1 with
        | .error _ => .error .soap_request
        | .ok rs =>
          if rs.status = 200 then .ok () else .error (.bad_response_status rs.status)),
       (h.soap_request env net "AddPortMapping"
            (h.add_port_mapping_body env proto external_port internal_port description
              duration local_ip)).2) := by
  unfold igd.add_port_mapping
  simp only [hep, hip]
  rcases h.soap_request env net "AddPortMapping"
    (h.add_port_mapping_body env proto external_port internal_port description
      duration local_ip) with ⟨r | rs, ops⟩
  · rfl
  · by_cases hs : rs.status = 200 <;> simp [hs, status_ok]

/-- `get_external_address`: the result is read off the result of
`soap_request`, whose operations are the only ones started. -/
theorem get_external_address_of_soap (env : collaborators) (net : soap_script) (h : igd) :
    h.get_external_address env net =
      ((match (h.soap_request env net "GetExternalIPAddress" get_external_address_body).1 with
        | .error _ => .error .soap_request
        | .ok rs =>
          if rs.status = 200 then
            match env.xml_parse rs.body with
            | none => .error .invalid_xml_body
            | some xml_rs =>
              match xml_rs.get_optional external_address_path with
              | none => .error .bad_result
              | some ip_s =>
                match env.make_address ip_s with
                | none => .error .bad_address
                | some addr => .ok addr
          else .error (.bad_response_status rs.status)),
       (h.soap_request env net "GetExternalIPAddress" get_external_address_body).2) := by
  unfold igd.get_external_address
  rcases h.soap_request env net "GetExternalIPAddress" get_external_address_body
    with ⟨r | rs, ops⟩
  · rfl
  · by_cases hs : rs.status = 200
    · simp only [hs, status_ok, ne_eq, not_true_eq_false, if_false, if_true]
      cases env.xml_parse rs.body with
      | none => rfl
      | some t =>
        simp only
        cases t.get_optional external_address_path with
        | none => rfl
        | some s =>
          simp only
          cases env.make_address s <;> rfl
    · simp [hs, status_ok]

/-- C2: when the control URL's host:port parses, a local address to the
gateway exists and `soap_request` returns a response `rs`, `add_port_mapping`
returns success if the status of `rs` is 200, whatever its body, and
`bad_response_status` carrying that status otherwise. -/
theorem add_port_mapping_classifies_status (env : collaborators) (net : soap_script) (h : igd)
    (proto : igd.protocol) (external_port internal_port : Nat) (description : String)
    (duration : Int) (remote_ep : endpoint) (local_ip : address) (rs : response)
    (hep : env.consume_endpoint h._url.host_and_port = some remote_ep)
    (hip : env.local_address_to remote_ep = some local_ip)
    (hrs : (h.soap_request env net "AddPortMapping"
            (h.add_port_mapping_body env proto external_port internal_port description
              duration local_ip)).1 = .ok rs) :
    (rs.status = 200 →
      (h.add_port_mapping env net proto external_port internal_port description duration).1
        = .ok ()) ∧
    (rs.status ≠ 200 →
      (h.add_port_mapping env net proto external_port internal_port description duration).1
        = .error (.bad_response_status rs.status)) := by
  rw [add_port_mapping_of_soap env net h proto external_port internal_port description duration
    remote_ep local_ip hep hip]
  simp only [hrs]
  constructor
  · intro hs; simp [hs]
  · intro hs; simp [hs]

/-- C2, at the fixture handle: status 200 with a body that is not XML gives
success, status 500 gives `bad_response_status 500`. -/
theorem add_port_mapping_classifies_status_witness :
    (fixture_igd.add_port_mapping (fixture_env fixture_root)
        (fixture_round_trip { status := 200, body := "not xml" }) .tcp 8080 80 "web" 3600).1
      = .ok () ∧
    (fixture_igd.add_port_mapping (fixture_env fixture_root)
        (fixture_round_trip { status := 500, body := "" }) .tcp 8080 80 "web" 3600).1
      = .error (.bad_response_status 500) :=
  ⟨(add_port_mapping_classifies_status (fixture_env fixture_root)
      (fixture_round_trip { status := 200, body := "not xml" }) fixture_igd .tcp 8080 80 "web" 3600
      { addr := "192.168.1.1", port := 5000 } (.v4 192 168 1 10)
      { status := 200, body := "not xml" } rfl rfl rfl).1 rfl,
   (add_port_mapping_classifies_status (fixture_env fixture_root)
      (fixture_round_trip { status := 500, body := "" }) fixture_igd .tcp 8080 80 "web" 3600
      { addr := "192.168.1.1", port := 5000 } (.v4 192 168 1 10)
      { status := 500, body := "" } rfl rfl rfl).2 (by decide)⟩

/-- C3 as stated fails: a response with status 200 whose body has the text
`203.0.113.5` at the path
`Envelope.Body.GetExternalIPAddressResponse.NewExternalIPAddress`, a valid
address, is answered with `bad_result`, not with the address; so it is not
true that every body with a valid address at that path yields the address. -/
theorem get_external_address_unqualified_path_is_bad_result :
    (fixture_env fixture_root).xml_parse "plain" = some fixture_plain_address_tree ∧
    fixture_plain_address_tree.get_optional claimed_address_path = some "203.0.113.5" ∧
    (fixture_env fixture_root).make_address "203.0.113.5" = some (.v4 203 0 113 5) ∧
    (fixture_igd.get_external_address (fixture_env fixture_root)
        (fixture_round_trip { status := 200, body := "plain" })).1 = .error .bad_result ∧
    ¬ (∀ (env : collaborators) (net : soap_script) (h : igd) (rs : response) (t : ptree)
        (s : String) (a : address),
        (h.soap_request env net "GetExternalIPAddress" get_external_address_body).1 = .ok rs →
        rs.status = 200 →
        env.xml_parse rs.body = some t →
        t.get_optional claimed_address_path = some s →
        env.make_address s = some a →
        (h.get_external_address env net).1 = .ok a) := by
  refine ⟨rfl, rfl, rfl, rfl, ?_⟩
  intro hall
  have h := hall (fixture_env fixture_root)
    (fixture_round_trip { status := 200, body := "plain" }) fixture_igd
    { status := 200, body := "plain" } fixture_plain_address_tree "203.0.113.5"
    (.v4 203 0 113 5) rfl rfl rfl rfl rfl
  revert h
  decide

/-- C3, amended: for every response with status 200 that `soap_request`
returns, `get_external_address` returns `invalid_xml_body` exactly when the
body does not parse, `bad_result` exactly when it parses and has no text at
the literal path
`s:Envelope.s:Body.u:GetExternalIPAddressResponse.NewExternalIPAddress`
(element names with the qualifiers `s:` and `u:` as written),
`bad_address` exactly when that text is not an address, and the address
exactly when it is; one of the four outcomes occurs. -/
theorem get_external_address_classifies_body (env : collaborators) (net : soap_script) (h : igd)
    (rs : response)
    (hrs : (h.soap_request env net "GetExternalIPAddress" get_external_address_body).1 = .ok rs)
    (hok : rs.status = 200) :
    ((h.get_external_address env net).1 = .error .invalid_xml_body
        ↔ env.xml_parse rs.body = none) ∧
    ((h.get_external_address env net).1 = .error .bad_result
        ↔ ∃ t, env.xml_parse rs.body = some t ∧
            t.get_optional external_address_path = none) ∧
    ((h.get_external_address env net).1 = .error .bad_address
        ↔ ∃ t s, env.xml_parse rs.body = some t ∧
            t.get_optional external_address_path = some s ∧ env.make_address s = none) ∧
    (∀ a, (h.get_external_address env net).1 = .ok a
        ↔ ∃ t s, env.xml_parse rs.body = some t ∧
            t.get_optional external_address_path = some s ∧ env.make_address s = some a) ∧
    ((h.get_external_address env net).1 = .error .invalid_xml_body ∨
     (h.get_external_address env net).1 = .error .bad_result ∨
     (h.get_external_address env net).1 = .error .bad_address ∨
     ∃ a, (h.get_external_address env net).1 = .ok a) := by
  rw [get_external_address_of_soap]
  simp only [hrs, hok, if_true]
  cases hp : env.xml_parse rs.body with
  | none => simp
  | some t =>
    cases hg : t.get_optional external_address_path with
    | none => simp [hg]
    | some s =>
      cases hm : env.make_address s with
      | none => simp [hg, hm]
      | some a => simp [hg, hm]

/-- C3 amended, at the fixture handle: the text `203.0.113.5` at the path gives the
address 203.0.113.5, the text `abc` gives `bad_address`, an envelope without
the path gives `bad_result`, a body that does not parse gives
`invalid_xml_body`. -/
theorem get_external_address_classifies_body_witness :
    (fixture_igd.get_external_address (fixture_env fixture_root)
        (fixture_round_trip { status := 200, body := "good" })).1 = .ok (.v4 203 0 113 5) ∧
    (fixture_igd.get_external_address (fixture_env fixture_root)
        (fixture_round_trip { status := 200, body := "abc" })).1 = .error .bad_address ∧
    (fixture_igd.get_external_address (fixture_env fixture_root)
        (fixture_round_trip { status := 200, body := "empty" })).1 = .error .bad_result ∧
    (fixture_igd.get_external_address (fixture_env fixture_root)
        (fixture_round_trip { status := 200, body := "<a><b></a>" })).1
      = .error .invalid_xml_body :=
  ⟨((get_external_address_classifies_body (fixture_env fixture_root)
      (fixture_round_trip { status := 200, body := "good" }) fixture_igd
      { status := 200, body := "good" } rfl rfl).2.2.2.1 (.v4 203 0 113 5)).mpr
      ⟨fixture_address_tree "203.0.113.5", "203.0.113.5", rfl, rfl, rfl⟩,
   (get_external_address_classifies_body (fixture_env fixture_root)
      (fixture_round_trip { status := 200, body := "abc" }) fixture_igd
      { status := 200, body := "abc" } rfl rfl).2.2.1.mpr
      ⟨fixture_address_tree "abc", "abc", rfl, rfl, rfl⟩,
   (get_external_address_classifies_body (fixture_env fixture_root)
      (fixture_round_trip { status := 200, body := "empty" }) fixture_igd
      { status := 200, body := "empty" } rfl rfl).2.1.mpr
      ⟨.node "" [("s:Envelope", .node "" [])], rfl, rfl⟩,
   (get_external_address_classifies_body (fixture_env fixture_root)
      (fixture_round_trip { status := 200, body := "<a><b></a>" }) fixture_igd
      { status := 200, body := "<a><b></a>" } rfl rfl).1.mpr rfl⟩

/-- `add_port_mapping` returns the member `aborted` on no input. -/
theorem add_port_mapping_never_aborted (env : collaborators) (net : soap_script) (h : igd)
    (proto : igd.protocol) (external_port internal_port : Nat) (description : String)
    (duration : Int) :
    (h.add_port_mapping env net proto external_port internal_port description duration).1
      ≠ .error .aborted := by
  cases hep : env.consume_endpoint h._url.host_and_port with
  | none =>
    unfold igd.add_port_mapping
    simp [hep]
  | some remote_ep =>
    cases hip : env.local_address_to remote_ep with
    | none =>
      unfold igd.add_port_mapping
      simp [hep, hip]
    | some local_ip =>
      rw [add_port_mapping_of_soap env net h proto external_port internal_port description
        duration remote_ep local_ip hep hip]
      cases (h.soap_request env net "AddPortMapping"
        (h.add_port_mapping_body env proto external_port internal_port description duration
          local_ip)).1 with
      | error e => simp
      | ok rs => by_cases hs : rs.status = 200 <;> simp [hs]

/-- C4 fails on the code: when `stop()` is called while the request is being
connected and the connect itself completes without error, `soap_request`
returns `operation_aborted`, and `add_port_mapping` turns that into the member
`soap_request`, not into `aborted`. -/
theorem add_port_mapping_stopped_returns_soap_request :
    fixture_stopped_round_trip.connect_ec = none ∧
    (fixture_igd.soap_request (fixture_env fixture_root) fixture_stopped_round_trip
        "AddPortMapping"
        (fixture_igd.add_port_mapping_body (fixture_env fixture_root) .tcp 8080 80 "web" 3600
          (.v4 192 168 1 10))).1 = .error .operation_aborted ∧
    (fixture_igd.add_port_mapping (fixture_env fixture_root) fixture_stopped_round_trip
        .tcp 8080 80 "web" 3600).1 = .error .soap_request ∧
    (fixture_igd.add_port_mapping (fixture_env fixture_root) fixture_stopped_round_trip
        .tcp 8080 80 "web" 3600).1 ≠ .error .aborted := by
  refine ⟨rfl, rfl, rfl, ?_⟩
  decide

/-- C6: `add_port_mapping` maps failures in this order: a control URL whose
host:port does not parse gives `igd_host_parse_failed`; else no local address
to the endpoint gives `no_endpoint_to_igd`; in both cases no network operation
is started; else a failed `soap_request` gives `soap_request`; else a status
other than 200 gives `bad_response_status` with that status. -/
theorem add_port_mapping_error_order (env : collaborators) (net : soap_script) (h : igd)
    (proto : igd.protocol) (external_port internal_port : Nat) (description : String)
    (duration : Int) :
    (env.consume_endpoint h._url.host_and_port = none →
      h.add_port_mapping env net proto external_port internal_port description duration
        = (.error .igd_host_parse_failed, [])) ∧
    (∀ remote_ep, env.consume_endpoint h._url.host_and_port = some remote_ep →
      env.local_address_to remote_ep = none →
      h.add_port_mapping env net proto external_port internal_port description duration
        = (.error .no_endpoint_to_igd, [])) ∧
    (∀ remote_ep local_ip ec, env.consume_endpoint h._url.host_and_port = some remote_ep →
      env.local_address_to remote_ep = some local_ip →
      (h.soap_request env net "AddPortMapping"
        (h.add_port_mapping_body env proto external_port internal_port description duration
          local_ip)).1 = .error ec →
      (h.add_port_mapping env net proto external_port internal_port description duration).1
        = .error .soap_request) ∧
    (∀ remote_ep local_ip rs, env.consume_endpoint h._url.host_and_port = some remote_ep →
      env.local_address_to remote_ep = some local_ip →
      (h.soap_request env net "AddPortMapping"
        (h.add_port_mapping_body env proto external_port internal_port description duration
          local_ip)).1 = .ok rs →
      rs.status ≠ 200 →
      (h.add_port_mapping env net proto external_port internal_port description duration).1
        = .error (.bad_response_status rs.status)) := by
  refine ⟨?_, ?_, ?_, ?_⟩
  · intro hep
    unfold igd.add_port_mapping
    simp [hep]
  · intro remote_ep hep hip
    unfold igd.add_port_mapping
    simp [hep, hip]
  · intro remote_ep local_ip ec hep hip hsr
    rw [add_port_mapping_of_soap env net h proto external_port internal_port description
      duration remote_ep local_ip hep hip]
    simp [hsr]
  · intro remote_ep local_ip rs hep hip hsr hst
    rw [add_port_mapping_of_soap env net h proto external_port internal_port description
      duration remote_ep local_ip hep hip]
    simp [hsr, hst]

/-- C6, at the fixtures: a host that does not parse, a host without a local
address to it, a refused connect, and a response with status 500. -/
theorem add_port_mapping_error_order_witness :
    (fixture_igd_at "gateway" "x").add_port_mapping (fixture_env fixture_root)
        (fixture_round_trip { status := 200, body := "" }) .udp 4000 4000 "game" 0
      = (.error .igd_host_parse_failed, []) ∧
    (fixture_igd_at "10.0.0.1" "80").add_port_mapping (fixture_env fixture_root)
        (fixture_round_trip { status := 200, body := "" }) .udp 4000 4000 "game" 0
      = (.error .no_endpoint_to_igd, []) ∧
    (fixture_igd.add_port_mapping (fixture_env fixture_root)
        (fixture_failed_connect (.other 111)) .udp 4000 4000 "game" 0).1
      = .error .soap_request ∧
    (fixture_igd.add_port_mapping (fixture_env fixture_root)
        (fixture_round_trip { status := 500, body := "" }) .udp 4000 4000 "game" 0).1
      = .error (.bad_response_status 500) :=
  ⟨(add_port_mapping_error_order (fixture_env fixture_root)
      (fixture_round_trip { status := 200, body := "" }) (fixture_igd_at "gateway" "x")
      .udp 4000 4000 "game" 0).1 rfl,
   (add_port_mapping_error_order (fixture_env fixture_root)
      (fixture_round_trip { status := 200, body := "" }) (fixture_igd_at "10.0.0.1" "80")
      .udp 4000 4000 "game" 0).2.1 { addr := "10.0.0.1", port := 80 } rfl rfl,
   (add_port_mapping_error_order (fixture_env fixture_root)
      (fixture_failed_connect (.other 111)) fixture_igd
      .udp 4000 4000 "game" 0).2.2.1 { addr := "192.168.1.1", port := 5000 }
      (.v4 192 168 1 10) (.other 111) rfl rfl rfl,
   (add_port_mapping_error_order (fixture_env fixture_root)
      (fixture_round_trip { status := 500, body := "" }) fixture_igd
      .udp 4000 4000 "game" 0).2.2.2 { addr := "192.168.1.1", port := 5000 }
      (.v4 192 168 1 10) { status := 500, body := "" } rfl rfl rfl (by decide)⟩

/-- C9: for every handle with service type URN `u` and every command `c`, the
request `soap_request` builds has one `SOAPAction` field, whose value is
exactly `u ++ "#" ++ c`; once the endpoint parses and the connect resumes
uncancelled and without error, `soap_request` writes that request, and it
writes no other; so `add_port_mapping` (given also a local address) writes a
request, every request it writes carries `u#AddPortMapping`, and
`get_external_address` writes a request, every request it writes carries
`u#GetExternalIPAddress`; and the URNs of the handles `discover` returns are
the types of the services they were matched on. -/
theorem soap_action_is_urn_hash_command (env : collaborators) (h : igd) :
    (∀ command message,
      (h.soap_request_message env command message).fields.filter
          (fun f => iequals f.1 "SOAPAction")
        = [("SOAPAction", h._urn ++ "#" ++ command)] ∧
      (h.soap_request_message env command message).find "SOAPAction"
        = some (h._urn ++ "#" ++ command)) ∧
    (∀ net command message remote_ep,
      env.consume_endpoint h._url.host_and_port = some remote_ep →
      net.connect_cancelled = false → net.connect_ec = none →
      net_op.write (h.soap_request_message env command message)
        ∈ (h.soap_request env net command message).2) ∧
    (∀ net command message rq,
      net_op.write rq ∈ (h.soap_request env net command message).2 →
      rq.find "SOAPAction" = some (h._urn ++ "#" ++ command)) ∧
    (∀ net proto external_port internal_port description duration remote_ep local_ip,
      env.consume_endpoint h._url.host_and_port = some remote_ep →
      env.local_address_to remote_ep = some local_ip →
      net.connect_cancelled = false → net.connect_ec = none →
      net_op.write (h.soap_request_message env "AddPortMapping"
          (h.add_port_mapping_body env proto external_port internal_port description duration
            local_ip))
        ∈ (h.add_port_mapping env net proto external_port internal_port description
            duration).2) ∧
    (∀ net proto external_port internal_port description duration rq,
      net_op.write rq ∈
        (h.add_port_mapping env net proto external_port internal_port description duration).2 →
      rq.find "SOAPAction" = some (h._urn ++ "#AddPortMapping")) ∧
    (∀ net remote_ep,
      env.consume_endpoint h._url.host_and_port = some remote_ep →
      net.connect_cancelled = false → net.connect_ec = none →
      net_op.write (h.soap_request_message env "GetExternalIPAddress" get_external_address_body)
        ∈ (h.get_external_address env net).2) ∧
    (∀ net rq, net_op.write rq ∈ (h.get_external_address env net).2 →
      rq.find "SOAPAction" = some (h._urn ++ "#GetExternalIPAddress")) ∧
    (∀ w exec qr root v, w.start = .ok () → w.get_response = .ok qr →
      igd.query_root_device env w.fetch qr.location = .ok root →
      v = "1" ∨ v = "2" →
      root.type = "urn:schemas-upnp-org:device:InternetGatewayDevice:" ++ v →
      ∃ hs, igd.discover env w exec = .ok hs ∧
        hs.map (fun h => h._urn) = (matched_services v root).map (fun m => m.2.2.type)) := by
  have hfind : ∀ command message,
      (h.soap_request_message env command message).find "SOAPAction"
        = some (h._urn ++ "#" ++ command) := by
    intro command message
    unfold request.find
    rw [soap_request_message_fields]
    rfl
  refine ⟨?_, ?_, ?_, ?_, ?_, ?_, ?_, ?_⟩
  · intro command message
    refine ⟨?_, hfind command message⟩
    rw [soap_request_message_fields]
    rfl
  · intro net command message remote_ep hep hc hec
    exact soap_request_writes_message env net h command message remote_ep hep hc hec
  · intro net command message rq hrq
    rw [soap_request_writes env net h command message rq hrq]
    exact hfind command message
  · intro net proto external_port internal_port description duration remote_ep local_ip
      hep hip hc hec
    rw [add_port_mapping_of_soap env net h proto external_port internal_port description
      duration remote_ep local_ip hep hip]
    exact soap_request_writes_message env net h _ _ remote_ep hep hc hec
  · intro net proto external_port internal_port description duration rq hrq
    cases hep : env.consume_endpoint h._url.host_and_port with
    | none =>
      unfold igd.add_port_mapping at hrq
      simp [hep] at hrq
    | some remote_ep =>
      cases hip : env.local_address_to remote_ep with
      | none =>
        unfold igd.add_port_mapping at hrq
        simp [hep, hip] at hrq
      | some local_ip =>
        rw [add_port_mapping_of_soap env net h proto external_port internal_port description
          duration remote_ep local_ip hep hip] at hrq
        rw [soap_request_writes env net h _ _ rq hrq, hfind, String.append_assoc]
        rfl
  · intro net remote_ep hep hc hec
    rw [get_external_address_of_soap]
    exact soap_request_writes_message env net h _ _ remote_ep hep hc hec
  · intro net rq hrq
    rw [get_external_address_of_soap] at hrq
    rw [soap_request_writes env net h _ _ rq hrq, hfind, String.append_assoc]
    rfl
  · intro w exec qr root v hstart hresp hfetch hv htype
    refine ⟨_, discover_of_root env w exec qr root v hstart hresp hfetch hv htype, ?_⟩
    rw [discover_walk_eq, List.map_map]
    rfl

/-- C9, at the fixture handle: `add_port_mapping` and `get_external_address`
each write a request, and the requests carry the URN of the handle, `#` and
the command. -/
theorem soap_action_is_urn_hash_command_witness :
    net_op.write (fixture_igd.soap_request_message (fixture_env fixture_root) "AddPortMapping"
        (fixture_igd.add_port_mapping_body (fixture_env fixture_root) .tcp 8080 80 "web" 3600
          (.v4 192 168 1 10)))
      ∈ (fixture_igd.add_port_mapping (fixture_env fixture_root)
          (fixture_round_trip { status := 200, body := "" }) .tcp 8080 80 "web" 3600).2 ∧
    (fixture_igd.soap_request_message (fixture_env fixture_root) "AddPortMapping"
        (fixture_igd.add_port_mapping_body (fixture_env fixture_root) .tcp 8080 80 "web" 3600
          (.v4 192 168 1 10))).find "SOAPAction"
      = some ("urn:schemas-upnp-org:service:WANIPConnection:1" ++ "#AddPortMapping") ∧
    net_op.write (fixture_igd.soap_request_message (fixture_env fixture_root)
        "GetExternalIPAddress" get_external_address_body)
      ∈ (fixture_igd.get_external_address (fixture_env fixture_root)
          (fixture_round_trip { status := 200, body := "good" })).2 ∧
    (fixture_igd.soap_request_message (fixture_env fixture_root)
        "GetExternalIPAddress" get_external_address_body).find "SOAPAction"
      = some ("urn:schemas-upnp-org:service:WANIPConnection:1" ++ "#GetExternalIPAddress") :=
  ⟨(soap_action_is_urn_hash_command (fixture_env fixture_root) fixture_igd).2.2.2.1
      (fixture_round_trip { status := 200, body := "" }) .tcp 8080 80 "web" 3600
      { addr := "192.168.1.1", port := 5000 } (.v4 192 168 1 10) rfl rfl rfl rfl,
   (soap_action_is_urn_hash_command (fixture_env fixture_root) fixture_igd).2.2.2.2.1
      (fixture_round_trip { status := 200, body := "" }) .tcp 8080 80 "web" 3600 _
      ((soap_action_is_urn_hash_command (fixture_env fixture_root) fixture_igd).2.2.2.1
        (fixture_round_trip { status := 200, body := "" }) .tcp 8080 80 "web" 3600
        { addr := "192.168.1.1", port := 5000 } (.v4 192 168 1 10) rfl rfl rfl rfl),
   (soap_action_is_urn_hash_command (fixture_env fixture_root) fixture_igd).2.2.2.2.2.1
      (fixture_round_trip { status := 200, body := "good" })
      { addr := "192.168.1.1", port := 5000 } rfl rfl rfl,
   (soap_action_is_urn_hash_command (fixture_env fixture_root) fixture_igd).2.2.2.2.2.2.1
      (fixture_round_trip { status := 200, body := "good" }) _
      ((soap_action_is_urn_hash_command (fixture_env fixture_root) fixture_igd).2.2.2.2.2.1
        (fixture_round_trip { status := 200, body := "good" })
        { addr := "192.168.1.1", port := 5000 } rfl rfl rfl)⟩

/-! ## The emitted body of `add_port_mapping` -/

theorem may_begin_false (pat t rest : List Char) (h : may_begin pat t = false) :
    pat.isPrefixOf (t ++ rest) = false := by
  induction pat generalizing t with
  | nil => simp [may_begin] at h
  | cons p ps ih =>
    cases t with
    | nil => simp [may_begin] at h
    | cons c cs =>
      simp only [may_begin, Bool.and_eq_false_iff] at h
      simp only [List.cons_append, List.isPrefixOf, Bool.and_eq_false_iff]
      rcases h with h | h
      · exact Or.inl h
      · exact Or.inr (ih cs h)

theorem element_texts_from_cons (opening closing : List Char) (c : Char) (cs : List Char) :
    element_texts_from opening closing (c :: cs)
      = (if opening.isPrefixOf (c :: cs) then
            (take_to closing ((c :: cs).drop opening.length)).toList
          else []) ++ element_texts_from opening closing cs := rfl

theorem take_to_cons (pat : List Char) (c : Char) (cs : List Char) :
    take_to pat (c :: cs)
      = if pat.isPrefixOf (c :: cs) then some [] else (take_to pat cs).map (c :: ·) := rfl

theorem element_texts_from_clear (opening closing xs rest : List Char)
    (h : clear_of opening xs = true) :
    element_texts_from opening closing (xs ++ rest) = element_texts_from opening closing rest := by
  induction xs with
  | nil => rfl
  | cons c cs ih =>
    simp only [clear_of, Bool.and_eq_true, Bool.not_eq_true'] at h
    have hp := may_begin_false opening (c :: cs) rest h.1
    rw [List.cons_append] at hp ⊢
    rw [element_texts_from_cons, hp, ih h.2]
    rfl

theorem take_to_clear (closing xs rest : List Char) (h : clear_of closing xs = true) :
    take_to closing (xs ++ (closing ++ rest)) = some xs := by
  induction xs with
  | nil =>
    cases hc : closing ++ rest with
    | nil =>
      have : closing = [] := (List.append_eq_nil.mp hc).1
      simp [take_to, this]
    | cons a as =>
      have hpre : closing.isPrefixOf (a :: as) = true := by
        rw [← hc]; simp [List.isPrefixOf_iff_prefix]
      simp [take_to, hpre]
  | cons c cs ih =>
    simp only [clear_of, Bool.and_eq_true, Bool.not_eq_true'] at h
    have hp := may_begin_false closing (c :: cs) (closing ++ rest) h.1
    rw [List.cons_append] at hp ⊢
    rw [take_to_cons, hp, ih h.2]
    rfl

theorem element_texts_from_opening (opening closing rest : List Char) (hne : opening ≠ []) :
    (element_texts_from opening closing (opening ++ rest)).head?
      = ((take_to closing rest).toList ++
          element_texts_from opening closing (opening ++ rest).tail).head? := by
  cases hc : opening ++ rest with
  | nil => exact absurd (List.append_eq_nil.mp hc).1 hne
  | cons a as =>
    have hpre : opening.isPrefixOf (a :: as) = true := by
      rw [← hc]; simp [List.isPrefixOf_iff_prefix]
    have hdrop : (a :: as).drop opening.length = rest := by
      rw [← hc]; simp
    rw [element_texts_from_cons, hpre, hdrop]
    rfl

theorem clear_of_of_not_mem (p : Char) (ps xs : List Char) (h : ∀ c ∈ xs, c ≠ p) :
    clear_of (p :: ps) xs = true := by
  induction xs with
  | nil => rfl
  | cons c cs ih =>
    have hc : (p == c) = false :=
      beq_eq_false_iff_ne.mpr (Ne.symm (h c (List.mem_cons_self _ _)))
    simp only [clear_of, may_begin, hc, Bool.false_and, Bool.not_false, Bool.true_and]
    exact ih fun c hcs => h c (List.mem_cons_of_mem _ hcs)

theorem digitChar_ne_lt (k : Nat) (hk : k < 10) : Nat.digitChar k ≠ '<' := by
  interval_cases k <;> decide

theorem toDigitsCore_ne_lt (fuel n : Nat) (ds : List Char) (hds : ∀ c ∈ ds, c ≠ '<') :
    ∀ c ∈ Nat.toDigitsCore 10 fuel n ds, c ≠ '<' := by
  induction fuel generalizing n ds with
  | zero => simpa [Nat.toDigitsCore] using hds
  | succ f ih =>
    have hds2 : ∀ c ∈ Nat.digitChar (n % 10) :: ds, c ≠ '<' := by
      intro c hc
      rcases List.mem_cons.mp hc with rfl | hc
      · exact digitChar_ne_lt _ (Nat.mod_lt _ (by decide))
      · exact hds c hc
    simp only [Nat.toDigitsCore]
    split
    · exact hds2
    · exact ih _ _ hds2

theorem toString_nat_ne_lt (n : Nat) : ∀ c ∈ (toString n).toList, c ≠ '<' := by
  show ∀ c ∈ Nat.toDigits 10 n, c ≠ '<'
  exact toDigitsCore_ne_lt _ _ _ (by simp)


theorem add_port_mapping_body_data (env : collaborators) (h : igd) (proto : igd.protocol)
    (external_port internal_port : Nat) (description : String) (duration : Int)
    (local_ip : address) :
    ∃ rest : List Char,
      (h.add_port_mapping_body env proto external_port internal_port description duration
        local_ip).toList
      = "<u:AddPortMapping xmlns:u=\"".toList ++ (h._urn.toList ++
        ("\"><NewRemoteHost></NewRemoteHost><NewEnabled>1</NewEnabled><NewExternalPort>".toList ++
        ((toString (external_port % 65536)).toList ++ ("</NewExternalPort>".toList ++
        ("<NewProtocol>".toList ++ (proto.print.toList ++
        ("</NewProtocol>".toList ++ rest))))))) := by
  refine ⟨"<NewInternalPort>".toList ++ ((toString (internal_port % 65536)).toList ++
    ("</NewInternalPort><NewInternalClient>".toList ++ ((env.address_to_string local_ip).toList ++
    ("</NewInternalClient><NewPortMappingDescription>".toList ++ (description.toList ++
    ("</NewPortMappingDescription><NewLeaseDuration>".toList ++ ((toString duration).toList ++
    ("</NewLeaseDuration><NewLeaseDuration>".toList ++ ((toString (0 : Int)).toList ++
    "</NewLeaseDuration></u:AddPortMapping>".toList))))))))), ?_⟩
  have e1 : "</NewExternalPort><NewProtocol>".toList
      = "</NewExternalPort>".toList ++ "<NewProtocol>".toList := by decide
  have e2 : "</NewProtocol><NewInternalPort>".toList
      = "</NewProtocol>".toList ++ "<NewInternalPort>".toList := by decide
  unfold igd.add_port_mapping_body
  simp only [String.toList, String.data_append] at e1 e2 ⊢
  rw [e1, e2]
  simp only [List.append_assoc]

theorem first_protocol_text (env : collaborators) (h : igd) (proto : igd.protocol)
    (external_port internal_port : Nat) (description : String) (duration : Int)
    (local_ip : address) (hurn : ∀ c ∈ h._urn.toList, c ≠ '<') :
    (element_texts "NewProtocol"
      (h.add_port_mapping_body env proto external_port internal_port description duration
        local_ip)).head? = some proto.print := by
  obtain ⟨rest, hbody⟩ := add_port_mapping_body_data env h proto external_port internal_port
    description duration local_ip
  have hop : ("<" ++ "NewProtocol" ++ ">").toList = "<NewProtocol>".toList := by decide
  have hcl : ("</" ++ "NewProtocol" ++ ">").toList = "</NewProtocol>".toList := by decide
  have hprint : clear_of "</NewProtocol>".toList proto.print.toList = true := by
    cases proto <;> decide
  have hurn2 : clear_of "<NewProtocol>".toList h._urn.toList = true :=
    clear_of_of_not_mem '<' "NewProtocol>".toList _ hurn
  have hport : clear_of "<NewProtocol>".toList (toString (external_port % 65536)).toList = true :=
    clear_of_of_not_mem '<' "NewProtocol>".toList _ (toString_nat_ne_lt _)
  unfold element_texts
  rw [hbody, hop, hcl, List.head?_map,
    element_texts_from_clear _ _ _ _ (by decide),
    element_texts_from_clear _ _ _ _ hurn2,
    element_texts_from_clear _ _ _ _ (by decide),
    element_texts_from_clear _ _ _ _ hport,
    element_texts_from_clear _ _ _ _ (by decide),
    element_texts_from_opening _ _ _ (by decide),
    take_to_clear _ _ _ hprint]
  rfl

/-- The URN of every handle `discover` constructs is one of the four service
URNs it matches on, none of which holds a `<`. -/
theorem discovered_urn_clear (env : collaborators) (w : discover_script) (exec : executor)
    (qr : query_response) (root : device) (v : String)
    (hstart : w.start = .ok ()) (hresp : w.get_response = .ok qr)
    (hfetch : igd.query_root_device env w.fetch qr.location = .ok root)
    (hv : v = "1" ∨ v = "2")
    (htype : root.type = "urn:schemas-upnp-org:device:InternetGatewayDevice:" ++ v)
    (hs : List igd) (hhs : igd.discover env w exec = .ok hs) (h : igd) (hh : h ∈ hs) :
    ∀ c ∈ h._urn.toList, c ≠ '<' := by
  rw [discover_of_root env w exec qr root v hstart hresp hfetch hv htype] at hhs
  have hwalk : discover_walk qr exec v root = hs := by simpa using hhs
  rw [← hwalk, discover_walk_eq, List.mem_map] at hh
  obtain ⟨m, hm, rfl⟩ := hh
  obtain ⟨_, _, _, _, _, ht⟩ := matched_services_mem v root m hm
  show ∀ c ∈ m.2.2.type.toList, c ≠ '<'
  rcases hv with rfl | rfl <;> rcases ht with ht | ht <;> rw [ht] <;> decide

/-- C10: for every protocol value `p` passed to `add_port_mapping` (on a
handle whose URN holds no `<`, as the URN of every handle `discover`
constructs does), the text of the `NewProtocol` element of the emitted body is
what `operator<<` writes for `p`: exactly `TCP`, three bytes, when `p` is
`tcp`, and exactly `UDP`, three bytes, when `p` is `udp`; nothing else is ever
written for the protocol. -/
theorem protocol_renders_as_tcp_or_udp (env : collaborators) (h : igd) (proto : igd.protocol)
    (external_port internal_port : Nat) (description : String) (duration : Int)
    (local_ip : address) (hurn : ∀ c ∈ h._urn.toList, c ≠ '<') :
    (element_texts "NewProtocol"
      (h.add_port_mapping_body env proto external_port internal_port description duration
        local_ip)).head? = some proto.print ∧
    (proto = .tcp → proto.print = "TCP") ∧
    (proto = .udp → proto.print = "UDP") ∧
    (proto.print = "TCP" ∨ proto.print = "UDP") ∧
    proto.print.utf8ByteSize = 3 := by
  refine ⟨first_protocol_text env h proto external_port internal_port description duration
    local_ip hurn, ?_, ?_, ?_, ?_⟩
  · rintro rfl; rfl
  · rintro rfl; rfl
  · cases proto
    · exact Or.inl rfl
    · exact Or.inr rfl
  · cases proto <;> decide

/-- C10, at the fixture handle with protocol `udp`, where the description
itself holds a `NewProtocol` element. -/
theorem protocol_renders_as_tcp_or_udp_witness :
    (element_texts "NewProtocol"
      (fixture_igd.add_port_mapping_body (fixture_env fixture_root) .udp 4000 4000
        "<NewProtocol>x</NewProtocol>" 0 (.v4 192 168 1 10))).head? = some "UDP" :=
  (protocol_renders_as_tcp_or_udp (fixture_env fixture_root) fixture_igd .udp 4000 4000
    "<NewProtocol>x</NewProtocol>" 0 (.v4 192 168 1 10) (by decide)).1

set_option maxRecDepth 100000 in
/-- C7 fails on the code: for a lease duration of 3600 seconds the emitted
body holds the `NewLeaseDuration` element twice, first with the text `3600`
and then with the text `0`; and for every duration the body ends with the
element for the duration followed by a second one with the text `0`. -/
theorem add_port_mapping_body_has_two_lease_durations :
    element_texts "NewLeaseDuration"
      (fixture_igd.add_port_mapping_body (fixture_env fixture_root) .tcp 8080 80 "web" 3600
        (.v4 192 168 1 10)) = ["3600", "0"] ∧
    ∀ (env : collaborators) (h : igd) (proto : igd.protocol) (external_port internal_port : Nat)
      (description : String) (duration : Int) (local_ip : address),
      ∃ before : String,
        h.add_port_mapping_body env proto external_port internal_port description duration
          local_ip
        = before ++ "<NewLeaseDuration>" ++ toString duration ++
            "</NewLeaseDuration><NewLeaseDuration>" ++ "0" ++
            "</NewLeaseDuration></u:AddPortMapping>" := by
  refine ⟨by decide, ?_⟩
  intro env h proto external_port internal_port description duration local_ip
  refine ⟨"<u:AddPortMapping xmlns:u=\"" ++ h._urn ++
    "\"><NewRemoteHost></NewRemoteHost><NewEnabled>1</NewEnabled><NewExternalPort>" ++
    toString (external_port % 65536) ++ "</NewExternalPort><NewProtocol>" ++
    proto.print ++ "</NewProtocol><NewInternalPort>" ++
    toString (internal_port % 65536) ++ "</NewInternalPort><NewInternalClient>" ++
    env.address_to_string local_ip ++ "</NewInternalClient><NewPortMappingDescription>" ++
    description ++ "</NewPortMappingDescription>", ?_⟩
  have e : "</NewPortMappingDescription><NewLeaseDuration>"
      = "</NewPortMappingDescription>" ++ "<NewLeaseDuration>" := by decide
  unfold igd.add_port_mapping_body
  rw [e]
  simp only [String.append_assoc]
  rfl

end upnp
